import Mathlib

/-! sidewinderd: key translator, profile state machine and device locator

A shallow embedding of `src/vendor/logitech/g710.cpp` (the Logitech G710+
driver: `getInput`, `handleKey`, `setProfile`, the constructor) and of
`findDevice` from `src/main.cpp`, together with the properties proved about
them.

Conventions.
* `int` values are `Int`; `unsigned char` values are `Fin 256`.
* The outcome of `read(fd_, buf, MAX_BUF)` is passed to `getInput` as the pair
  of the returned byte count and the contents of `buf` after the call.
* A computation that hands a null pointer to the `std::string` constructor has
  no defined result; it is `none`.
-/

namespace Sidewinderd

/-! ## Key translator (`LogitechG710::getInput`) -/

/-- Modelled from the spec: the enumeration `KeyData::KeyType` is declared in a
header that is not among the sources. `Macro`, `Extra` and `Record` are the
enumerators used by `g710.cpp`; `None` is the zero value a value-initialised
`KeyData()` carries ("zero-valued/kind=None means no actionable key"). -/
inductive KeyType where
  | None
  | Macro
  | Extra
  | Record
deriving DecidableEq

/-- Modelled from the spec: `struct KeyData` (declared in a header that is not
among the sources), an `int index` and a `KeyType type`. The default value is
the value-initialised `KeyData()`. -/
structure KeyData where
  index : Int := 0
  type : KeyType := KeyType.None
deriving DecidableEq

/-- The constant `G710_KEY_M1`. -/
def G710_KEY_M1 : Int := 0x01

/-- The constant `G710_KEY_M2`. -/
def G710_KEY_M2 : Int := 0x02

/-- The constant `G710_KEY_M3`. -/
def G710_KEY_M3 : Int := 0x03

/-- The constant `G710_KEY_MR`. -/
def G710_KEY_MR : Int := 0x04

/-- The scan of `ffs`: with `fuel` bits left to look at, `pos` is the 1-indexed
position of the least significant bit of `w`. The result is `pos` at the first
set bit, and `0` when the bits run out. -/
def ffsLoop : Nat → Nat → Nat → Nat
  | 0, _, _ => 0
  | fuel + 1, w, pos => if w % 2 = 1 then pos else ffsLoop fuel (w / 2) (pos + 1)

/-- The C library function `ffs(int)`: the 1-indexed position of the least
significant set bit of the 32-bit word `i`, and `0` when `i` is zero. -/
def ffs (i : Int) : Int :=
  (ffsLoop 32 (i % 4294967296).toNat 1 : Nat)

/-- The method `LogitechG710::getInput`, as a function of what
`read(fd_, buf, MAX_BUF)` returned (`nBytes`) and left in `buf`. -/
def getInput (nBytes : Int) (buf : Nat → Fin 256) : KeyData :=
  let keyData : KeyData := {}
  if nBytes = 4 ∧ buf 0 = 0x03 then
    if buf 2 = 0 then
      let key : Int := ffs ((buf 1).val : Int)
      if key ≠ 0 then { index := key, type := KeyType.Macro } else keyData
    else if buf 1 = 0 then
      let key : Int := ffs (((buf 2).val : Int) >>> 4)
      if key = G710_KEY_MR then { index := key, type := KeyType.Record }
      else if key ≠ 0 then { index := key, type := KeyType.Extra }
      else keyData
    else keyData
  else keyData

/-- A buffer holding the given bytes at offsets `0, 1, 2, ...` (and zero
after them). -/
def bufOf (bytes : List (Fin 256)) : Nat → Fin 256 :=
  fun i => bytes.getD i 0

/-- Modelled from the spec: "the 1-indexed position of the lowest set bit of
`w`, with `n = 0` when `w` is zero". -/
def IsLowestSetBit (w n : Nat) : Prop :=
  (w = 0 ∧ n = 0) ∨
    (1 ≤ n ∧ w.testBit (n - 1) = true ∧ ∀ j, j < n - 1 → w.testBit j = false)

/-! ## LEDs -/

/-- Modelled from the spec: the enumeration `LedType` is declared in a header
that is not among the sources; `Profile` and `Indicator` are the enumerators
the constructor of `LogitechG710` uses. -/
inductive LedType where
  | Profile
  | Indicator
deriving DecidableEq

/-- Modelled from the spec: the class `Led` (not among the sources) as the
constructor of `LogitechG710` sets it up: a report id, a bitmask in the
report byte its group shares, and a class. -/
structure Led where
  report : Nat
  led : Nat
  ledType : LedType
deriving DecidableEq

/-- The constant `G710_FEATURE_REPORT_LED`. -/
def G710_FEATURE_REPORT_LED : Nat := 0x06

/-- The constant `G710_LED_M1`. -/
def G710_LED_M1 : Nat := 0x10

/-- The constant `G710_LED_M2`. -/
def G710_LED_M2 : Nat := 0x20

/-- The constant `G710_LED_M3`. -/
def G710_LED_M3 : Nat := 0x40

/-- The constant `G710_LED_MR`. -/
def G710_LED_MR : Nat := 0x80

/-- The member `ledProfile1_` after the constructor of `LogitechG710`:
`ledProfile1_{G710_FEATURE_REPORT_LED, G710_LED_M1, &group_}` followed by
`setLedType(LedType::Profile)`. -/
def ledProfile1_ : Led := ⟨G710_FEATURE_REPORT_LED, G710_LED_M1, LedType.Profile⟩

/-- The member `ledProfile2_` after the constructor of `LogitechG710`. -/
def ledProfile2_ : Led := ⟨G710_FEATURE_REPORT_LED, G710_LED_M2, LedType.Profile⟩

/-- The member `ledProfile3_` after the constructor of `LogitechG710`. -/
def ledProfile3_ : Led := ⟨G710_FEATURE_REPORT_LED, G710_LED_M3, LedType.Profile⟩

/-- The member `ledRecord_` after the constructor of `LogitechG710`:
`ledRecord_{G710_FEATURE_REPORT_LED, G710_LED_MR, &group_}` followed by
`setLedType(LedType::Indicator)`. -/
def ledRecord_ : Led := ⟨G710_FEATURE_REPORT_LED, G710_LED_MR, LedType.Indicator⟩

/-- The member `group_`: the four LEDs the constructor hands `&group_` to. -/
def group_ : List Led := [ledProfile1_, ledProfile2_, ledProfile3_, ledRecord_]

/-- Modelled from the spec: `Led::on` (not among the sources), as a function on
the report byte the group shares. "`on()` writes a feature report to the device
setting this LED's bit in the shared report byte; if the LED belongs to a
Profile class group, all other LEDs in that group are cleared in the same
logical operation"; "Indicator-class LEDs toggle independently". -/
def Led.on (group : List Led) (l : Led) (value : Nat) : Nat :=
  match l.ledType with
  | LedType.Profile =>
    (group.foldl
      (fun v o => if o.ledType = LedType.Profile ∧ o ≠ l then v &&& (0xFF ^^^ o.led) else v)
      value) ||| l.led
  | LedType.Indicator => value ||| l.led

/-- Modelled from the spec: the `state` of an LED, read off the shared report
byte: the LED is lit when its bit is set. -/
def Led.isOn (l : Led) (value : Nat) : Bool :=
  decide (value &&& l.led ≠ 0)

/-- Modelled from the spec: `Led::off` (not among the sources), as a function
on the report byte the group shares. "`off()` clears only this LED's bit." -/
def Led.off (l : Led) (value : Nat) : Nat :=
  value &&& (0xFF ^^^ l.led)

/-! ## Profile state machine (`LogitechG710::setProfile`, `handleKey`) -/

/-- The mutable state of a `LogitechG710` object that `handleKey` and
`setProfile` touch: the member `profile_`, and the report byte shared by the
LEDs of `group_` on which `Led.on` works. The field `recordMode` is modelled
from the spec: "RecordMode: boolean state, toggled only by RecordToggle
events". -/
structure LogitechG710 where
  profile_ : Int
  ledValue : Nat
  recordMode : Bool
deriving DecidableEq

/-- What a call does besides updating the object, in program order. -/
inductive Effect where
  /-- A detached thread running `playMacro(key.getMacroPath(profile_), virtInput_)`
  for the key with index `index`. -/
  | playMacro (index : Int) (profile : Int)
  /-- A call of `on()` on the LED. -/
  | ledOn (l : Led)
  /-- A call of `handleRecordMode(&led, key)`. -/
  | handleRecordMode (l : Led) (key : Int)
deriving DecidableEq

/-- The method `LogitechG710::setProfile`. -/
def setProfile (profile : Int) (s : LogitechG710) : LogitechG710 × List Effect :=
  let s : LogitechG710 := { s with profile_ := profile }
  if s.profile_ = 0 then
    ({ s with ledValue := Led.on group_ ledProfile1_ s.ledValue }, [Effect.ledOn ledProfile1_])
  else if s.profile_ = 1 then
    ({ s with ledValue := Led.on group_ ledProfile2_ s.ledValue }, [Effect.ledOn ledProfile2_])
  else if s.profile_ = 2 then
    ({ s with ledValue := Led.on group_ ledProfile3_ s.ledValue }, [Effect.ledOn ledProfile3_])
  else (s, [])

/-- The method `LogitechG710::handleKey`. The inherited method
`handleRecordMode` is not among the sources; it is the parameter `hrm`, a
function on the object. `playMacro` is a free function run on a detached
thread with the macro path and `virtInput_` as its arguments. -/
def handleKey (hrm : Led → Int → LogitechG710 → LogitechG710)
    (s : LogitechG710) (keyData : KeyData) : LogitechG710 × List Effect :=
  if keyData.index ≠ 0 then
    if keyData.type = KeyType.Macro then
      (s, [Effect.playMacro keyData.index s.profile_])
    else if keyData.type = KeyType.Extra then
      if keyData.index = G710_KEY_M1 then setProfile 0 s
      else if keyData.index = G710_KEY_M2 then setProfile 1 s
      else if keyData.index = G710_KEY_M3 then setProfile 2 s
      else (s, [])
    else if keyData.type = KeyType.Record then
      if keyData.index = G710_KEY_MR then
        (hrm ledRecord_ G710_KEY_MR s, [Effect.handleRecordMode ledRecord_ G710_KEY_MR])
      else (s, [])
    else (s, [])
  else (s, [])

/-- The object after `handleKey` has been applied to each event of `keys` in
turn, as the read loop does. -/
def handleKeys (hrm : Led → Int → LogitechG710 → LogitechG710)
    (s : LogitechG710) (keys : List KeyData) : LogitechG710 :=
  keys.foldl (fun st k => (handleKey hrm st k).1) s

/-- Modelled from the spec: the inherited method `handleRecordMode` (not among
the sources), the transition of a RecordToggle event. "RecordToggle → Record
flips, triggers Indicator LED toggle"; the record LED is lit when Record is
armed ("LED state is a pure function of (active profile, record mode)"), and
the profile is left alone ("mutated only by ProfileSelect events"). -/
def handleRecordMode (ledRecord : Led) (_keyRecord : Int) (s : LogitechG710) :
    LogitechG710 :=
  let record := !s.recordMode
  { s with
    recordMode := record
    ledValue :=
      if record then Led.on group_ ledRecord s.ledValue else Led.off ledRecord s.ledValue }

/-- A stand-in for `handleRecordMode` that lights the record LED and leaves the
rest of the object alone. -/
def recordLedOn (l : Led) (_key : Int) (s : LogitechG710) : LogitechG710 :=
  { s with ledValue := Led.on group_ l s.ledValue }

/-! ## Device locator (`findDevice`) -/

/-- Modelled from the spec: `struct Device` (declared in a header that is not
among the sources) as far as `findDevice` reads it: the vendor and product
identifiers of a catalog entry, and its display name. -/
structure Device where
  vendor : String
  product : String
  name : String
deriving DecidableEq

/-- Modelled from the spec: `struct sidewinderd::DevNode` (declared in a header
that is not among the sources): the raw-HID node path and the input-event node
path. -/
structure DevNode where
  hidraw : String
  inputEvent : String
deriving DecidableEq

/-- A USB device as udev reports it: the attributes `idVendor` and
`idProduct`, which every USB device has. -/
structure UsbDevice where
  idVendor : String
  idProduct : String
deriving DecidableEq

/-- A USB interface as udev reports it: the attribute `bInterfaceNumber`, which
every USB interface has, and its parent of subsystem `usb` and devtype
`usb_device`, when `udev_device_get_parent_with_subsystem_devtype` finds
one. -/
structure UsbInterface where
  bInterfaceNumber : String
  usbDevice : Option UsbDevice
deriving DecidableEq

/-- One entry of the udev enumeration: its syspath, subsystem and device node,
its nearest ancestor of subsystem `usb` and devtype `usb_interface` (when there
is one), its properties, and whether it has an ancestor of subsystem `usb` of
any devtype. -/
structure UdevEntry where
  sysPath : String
  subsystem : String
  devnode : String
  usbInterface : Option UsbInterface
  properties : List (String × String)
  usbParent : Bool
deriving DecidableEq

/-- What the variable `dev` of `findDevice` refers to: the enumerated device,
or one of its ancestors of subsystem `usb`. -/
inductive UdevDevice where
  | entry (e : UdevEntry)
  | usbInterface (i : UsbInterface)
  | usbDevice (d : UsbDevice)
deriving DecidableEq

/-- The libudev function `udev_device_get_subsystem`: an ancestor found by
`udev_device_get_parent_with_subsystem_devtype(dev, "usb", ...)` has subsystem
`usb`. -/
def udev_device_get_subsystem : UdevDevice → String
  | UdevDevice.entry e => e.subsystem
  | UdevDevice.usbInterface _ => "usb"
  | UdevDevice.usbDevice _ => "usb"

/-- The libudev function `udev_device_get_property_value` on an enumerated
device; `none` is the null pointer. -/
def udev_device_get_property_value (e : UdevEntry) (key : String) : Option String :=
  e.properties.lookup key

/-- The C library function `strstr`, as a test: whether `needle` occurs in
`haystack`. -/
def strstr (haystack needle : String) : Bool :=
  haystack.toList.tails.any (fun t => needle.toList.isPrefixOf t)

/-- The part of the loop body of `findDevice` guarded by the subsystem being
`hidraw`. The result is what `dev` refers to afterwards together with `isFound`
and `*devNode`, and `none` when a null pointer reaches the `std::string`
constructor. -/
def hidrawBranch (device : Device) (e : UdevEntry) (st : Bool × DevNode) :
    Option (UdevDevice × Bool × DevNode) :=
  if udev_device_get_subsystem (UdevDevice.entry e) = "hidraw" then
    let devNodePath := e.devnode
    match e.usbInterface with
    -- "Unable to find parent device." is logged, and the null `dev` goes on to
    -- `std::string(udev_device_get_sysattr_value(dev, "bInterfaceNumber"))`
    | none => none
    | some i =>
      if i.bInterfaceNumber = "01" then
        match i.usbDevice with
        -- `std::string(udev_device_get_sysattr_value(dev, "idVendor"))` on a null `dev`
        | none => none
        | some d =>
          if d.idVendor = device.vendor then
            if d.idProduct = device.product then
              some (UdevDevice.usbDevice d, true, { st.2 with hidraw := devNodePath })
            else some (UdevDevice.usbDevice d, st)
          else some (UdevDevice.usbDevice d, st)
      else some (UdevDevice.usbInterface i, st)
  else some (UdevDevice.entry e, st)

/-- The condition of the second `if` of the loop body of `findDevice`, on an
enumerated device. -/
def inputCondition (device : Device) (sysPath : String) (e : UdevEntry) : Bool :=
  decide (e.subsystem = "input")
    && (udev_device_get_property_value e "ID_MODEL_ID").isSome
    && decide (udev_device_get_property_value e "ID_MODEL_ID" = some device.product)
    && (udev_device_get_property_value e "ID_VENDOR_ID").isSome
    && decide (udev_device_get_property_value e "ID_VENDOR_ID" = some device.vendor)
    && (udev_device_get_property_value e "ID_USB_INTERFACE_NUM").isSome
    && decide (udev_device_get_property_value e "ID_USB_INTERFACE_NUM" = some "00")
    && (udev_device_get_property_value e "ID_INPUT_KEYBOARD").isSome
    && strstr sysPath "event"
    && e.usbParent

/-- The part of the loop body of `findDevice` that looks for the input event
node, run on what `dev` refers to after the first part. The subsystem of an
ancestor is `usb`, so the condition fails on it at its first conjunct. -/
def inputBranch (device : Device) (sysPath : String) (dev : UdevDevice)
    (st : Bool × DevNode) : Bool × DevNode :=
  match dev with
  | UdevDevice.entry e =>
    if inputCondition device sysPath e then (st.1, { st.2 with inputEvent := e.devnode })
    else st
  | UdevDevice.usbInterface _ => st
  | UdevDevice.usbDevice _ => st

/-- One pass through the body of the loop of `findDevice`, on the entry `e`,
from `isFound` and `*devNode` as `st`. -/
def findDeviceStep (device : Device) (st : Bool × DevNode) (e : UdevEntry) :
    Option (Bool × DevNode) :=
  match hidrawBranch device e st with
  | none => none
  | some (dev, st1) => some (inputBranch device e.sysPath dev st1)

/-- The loop `udev_list_entry_foreach` of `findDevice`. -/
def findDeviceLoop (device : Device) : List UdevEntry → Bool × DevNode → Option (Bool × DevNode)
  | [], st => some st
  | e :: es, st =>
    match findDeviceStep device st e with
    | none => none
    | some st1 => findDeviceLoop device es st1

/-- The function `findDevice`: `udev` is the enumeration of the `hidraw` and
`input` subsystems, or `none` when `udev_new` fails. The result is the returned
`int` and `*devNode`, or `none` when a null pointer reaches the `std::string`
constructor. -/
def findDevice (device : Device) (devNode : DevNode) (udev : Option (List UdevEntry)) :
    Option (Int × DevNode) :=
  match udev with
  | none => some (-1, devNode)
  | some entries =>
    match findDeviceLoop device entries (false, devNode) with
    | none => none
    | some (isFound, node) => some (if isFound then 1 else 0, node)

/-- Modelled from the spec: the raw-HID match of the device locator. The entry
is of the `hidraw` subsystem, its USB interface number is exactly "01", and the
USB device above it carries the descriptor's vendor and product identifiers. -/
def hidrawMatches (device : Device) (e : UdevEntry) : Prop :=
  e.subsystem = "hidraw" ∧
    ∃ i d, e.usbInterface = some i ∧ i.bInterfaceNumber = "01" ∧ i.usbDevice = some d ∧
      d.idVendor = device.vendor ∧ d.idProduct = device.product

/-- The USB ancestors that `findDevice` looks up on a `hidraw` entry exist: the
interface, and the device above it. -/
def ancestorsExist (e : UdevEntry) : Prop :=
  ∃ i d, e.usbInterface = some i ∧ i.usbDevice = some d

/-- The catalog entry of the Logitech G710+ in `main`. -/
def g710 : Device := ⟨"046d", "c24d", "Logitech G710+"⟩

/-- Modelled from the spec: the input-event match of the device locator. The
entry is of the `input` subsystem, its model, vendor and interface number
properties are the descriptor's product, the descriptor's vendor and "00", it
is a keyboard, its syspath names an event node and it has a USB ancestor. -/
def inputMatches (device : Device) (e : UdevEntry) : Prop :=
  e.subsystem = "input" ∧
    e.properties.lookup "ID_MODEL_ID" = some device.product ∧
    e.properties.lookup "ID_VENDOR_ID" = some device.vendor ∧
    e.properties.lookup "ID_USB_INTERFACE_NUM" = some "00" ∧
    (e.properties.lookup "ID_INPUT_KEYBOARD").isSome = true ∧
    strstr e.sysPath "event" = true ∧
    e.usbParent = true

/-- The raw-HID entry `hidraw<n>` of a Logitech G710+ on the given interface. -/
def g710Hidraw (n iface : String) : UdevEntry :=
  { sysPath := "/sys/class/hidraw/hidraw" ++ n, subsystem := "hidraw",
    devnode := "/dev/hidraw" ++ n,
    usbInterface := some ⟨iface, some ⟨"046d", "c24d"⟩⟩, properties := [], usbParent := true }

/-- The input event entry `event<n>` of the keyboard interface of a Logitech
G710+. -/
def g710Event (n : String) : UdevEntry :=
  { sysPath := "/sys/class/input/event" ++ n, subsystem := "input",
    devnode := "/dev/input/event" ++ n,
    usbInterface := some ⟨"00", some ⟨"046d", "c24d"⟩⟩,
    properties := [("ID_MODEL_ID", "c24d"), ("ID_VENDOR_ID", "046d"),
      ("ID_USB_INTERFACE_NUM", "00"), ("ID_INPUT_KEYBOARD", "1")],
    usbParent := true }

/-- A raw-HID entry without a USB ancestor, such as a Bluetooth or I2C HID
device. -/
def orphanHidraw : UdevEntry :=
  { sysPath := "/sys/class/hidraw/hidraw9", subsystem := "hidraw", devnode := "/dev/hidraw9",
    usbInterface := none, properties := [], usbParent := false }

/-- The profile LED with number `k + 1`: `ledProfile1_`, `ledProfile2_` or
`ledProfile3_`, for `k` the profile `0`, `1` or `2`. -/
def profileLed (k : Nat) : Led :=
  if k = 0 then ledProfile1_ else if k = 1 then ledProfile2_ else ledProfile3_

/-! ## Lemmas on `ffs` -/

theorem ffsLoop_zero (fuel pos : Nat) : ffsLoop fuel 0 pos = 0 := by
  induction fuel generalizing pos with
  | zero => rfl
  | succ f ih => simp [ffsLoop, ih]

theorem ffsLoop_spec (fuel : Nat) :
    ∀ w pos : Nat, w ≠ 0 → w < 2 ^ fuel →
      ∃ k, w.testBit k = true ∧ (∀ j, j < k → w.testBit j = false) ∧
        ffsLoop fuel w pos = pos + k := by
  induction fuel with
  | zero =>
    intro w pos hw hlt
    simp at hlt
    exact absurd hlt hw
  | succ f ih =>
    intro w pos hw hlt
    by_cases hodd : w % 2 = 1
    · refine ⟨0, ?_, ?_, ?_⟩
      · simp [Nat.testBit_zero, hodd]
      · intro j hj
        exact absurd hj (Nat.not_lt_zero j)
      · simp [ffsLoop, hodd]
    · have hhalf : w / 2 ≠ 0 := by omega
      have hlt2 : w / 2 < 2 ^ f := by
        rw [pow_succ] at hlt
        omega
      obtain ⟨k, hk, hlow, hres⟩ := ih (w / 2) (pos + 1) hhalf hlt2
      refine ⟨k + 1, ?_, ?_, ?_⟩
      · rw [Nat.testBit_succ]
        exact hk
      · intro j hj
        cases j with
        | zero => simp [Nat.testBit_zero, hodd]
        | succ j =>
          rw [Nat.testBit_succ]
          exact hlow j (by omega)
      · simp [ffsLoop, hodd, hres]
        omega

theorem ffs_natCast (w : Nat) (hw : w < 4294967296) :
    ffs (w : Int) = ((ffsLoop 32 w 1 : Nat) : Int) := by
  unfold ffs
  have h : ((w : Int) % 4294967296).toNat = w := by omega
  rw [h]

theorem ffs_isLowestSetBit (w : Nat) (hw : w < 4294967296) :
    ∃ n : Nat, IsLowestSetBit w n ∧ ffs (w : Int) = (n : Int) := by
  rw [ffs_natCast w hw]
  by_cases h0 : w = 0
  · refine ⟨0, Or.inl ⟨h0, rfl⟩, ?_⟩
    rw [h0, ffsLoop_zero]
  · obtain ⟨k, hk, hlow, hres⟩ := ffsLoop_spec 32 w 1 h0 (by norm_num; exact hw)
    refine ⟨k + 1, Or.inr ⟨by omega, ?_, ?_⟩, ?_⟩
    · simpa using hk
    · simpa using hlow
    · rw [hres]
      omega

theorem IsLowestSetBit_unique (w n m : Nat) (hn : IsLowestSetBit w n)
    (hm : IsLowestSetBit w m) : n = m := by
  rcases hn with ⟨hw, hn⟩ | ⟨hn1, hnb, hnl⟩ <;> rcases hm with ⟨hw2, hm⟩ | ⟨hm1, hmb, hml⟩
  · omega
  · rw [hw] at hmb
    simp at hmb
  · rw [hw2] at hnb
    simp at hnb
  · by_contra hne
    rcases Nat.lt_or_gt_of_ne hne with h | h
    · have := hml (n - 1) (by omega)
      rw [this] at hnb
      exact Bool.noConfusion hnb
    · have := hnl (m - 1) (by omega)
      rw [this] at hmb
      exact Bool.noConfusion hmb

theorem IsLowestSetBit_two_pow (k : Nat) : IsLowestSetBit (1 <<< k) (k + 1) := by
  refine Or.inr ⟨by omega, ?_, ?_⟩
  · simp [Nat.one_shiftLeft]
  · intro j hj
    simp [Nat.one_shiftLeft, Nat.testBit_two_pow]
    omega

theorem IsLowestSetBit_pos (w n : Nat) (hw : w ≠ 0) (h : IsLowestSetBit w n) : 1 ≤ n := by
  rcases h with ⟨h0, _⟩ | ⟨h1, _, _⟩
  · exact absurd h0 hw
  · exact h1

theorem IsLowestSetBit_le (w n b : Nat) (hw : w < 2 ^ b) (h : IsLowestSetBit w n) : n ≤ b := by
  rcases h with ⟨_, h0⟩ | ⟨h1, hb, _⟩
  · omega
  · have hge := Nat.testBit_implies_ge hb
    have hlt : 2 ^ (n - 1) < 2 ^ b := lt_of_le_of_lt hge hw
    have := (Nat.pow_lt_pow_iff_right (by norm_num : 1 < 2)).mp hlt
    omega

/-! ## The key translator -/

/-- C1: a 4-byte report with marker 0x03, a non-zero macro-key byte and a zero
extra-key byte decodes to a Macro event whose index is the 1-indexed position
of the lowest set bit of the macro-key byte; for the byte `1 <<< k` the index
is `k + 1`. -/
theorem getInput_macroKey (buf : Nat → Fin 256) (h0 : buf 0 = 0x03) (h1 : buf 1 ≠ 0)
    (h2 : buf 2 = 0) :
    (∃ n : Nat, IsLowestSetBit (buf 1).val n ∧ 1 ≤ n ∧ n ≤ 8 ∧
      getInput 4 buf = { index := (n : Int), type := KeyType.Macro }) ∧
    (∀ k : Nat, k ≤ 7 → (buf 1).val = 1 <<< k →
      getInput 4 buf = { index := (k : Int) + 1, type := KeyType.Macro }) := by
  have hlt : (buf 1).val < 4294967296 := lt_trans (buf 1).isLt (by norm_num)
  have hne : (buf 1).val ≠ 0 := fun h => h1 (Fin.ext h)
  obtain ⟨n, hn, hffs⟩ := ffs_isLowestSetBit (buf 1).val hlt
  have hpos : 1 ≤ n := IsLowestSetBit_pos _ _ hne hn
  have hle : n ≤ 8 := IsLowestSetBit_le _ _ 8 (by simp) hn
  have hres : getInput 4 buf = { index := (n : Int), type := KeyType.Macro } := by
    have hn0 : (n : Int) ≠ 0 := by omega
    simp [getInput, h0, h2, hffs, hn0]
  refine ⟨⟨n, hn, hpos, hle, hres⟩, ?_⟩
  intro k _ hk
  have hk1 : IsLowestSetBit (buf 1).val (k + 1) := by
    rw [hk]
    exact IsLowestSetBit_two_pow k
  have : n = k + 1 := IsLowestSetBit_unique _ _ _ hn hk1
  rw [hres, this]
  simp

/-- Witness of C1: the report of key G1. -/
theorem getInput_macroKey_witness :
    getInput 4 (bufOf [0x03, 0x01, 0x00, 0x00]) = { index := 1, type := KeyType.Macro } :=
  (getInput_macroKey (bufOf [0x03, 0x01, 0x00, 0x00]) (by decide) (by decide) (by decide)).2
    0 (by decide) (by decide)

theorem getInput_extra_decode (buf : Nat → Fin 256) (h0 : buf 0 = 0x03) (h1 : buf 1 = 0)
    (h2 : buf 2 ≠ 0) :
    ∃ n : Nat, IsLowestSetBit ((buf 2).val >>> 4) n ∧ n ≤ 4 ∧
      (n = 4 → getInput 4 buf = { index := 4, type := KeyType.Record }) ∧
      (n = 1 ∨ n = 2 ∨ n = 3 → getInput 4 buf = { index := (n : Int), type := KeyType.Extra }) ∧
      (n = 0 → getInput 4 buf = { index := 0, type := KeyType.None }) := by
  have hw : (buf 2).val >>> 4 < 2 ^ 4 := by
    have := (buf 2).isLt
    rw [Nat.shiftRight_eq_div_pow]
    omega
  have hlt : (buf 2).val >>> 4 < 4294967296 := lt_trans hw (by norm_num)
  obtain ⟨n, hn, hffs⟩ := ffs_isLowestSetBit ((buf 2).val >>> 4) hlt
  have hle : n ≤ 4 := IsLowestSetBit_le _ _ 4 hw hn
  have hcast : ((buf 2).val : Int) >>> 4 = (((buf 2).val >>> 4 : Nat) : Int) := rfl
  have key : ffs (((buf 2).val : Int) >>> 4) = (n : Int) := by rw [hcast, hffs]
  refine ⟨n, hn, hle, ?_, ?_, ?_⟩
  · intro h
    subst h
    simp [getInput, h0, h1, h2, key, G710_KEY_MR]
  · intro h
    rcases h with h | h | h <;> subst h <;> simp [getInput, h0, h1, h2, key, G710_KEY_MR]
  · intro h
    subst h
    simp [getInput, h0, h1, h2, key, G710_KEY_MR]

theorem getInput_extra_single (buf : Nat → Fin 256) (h0 : buf 0 = 0x03) (h1 : buf 1 = 0)
    (h2 : buf 2 ≠ 0) (k : Nat) (hk : (buf 2).val >>> 4 = 1 <<< k) :
    (k ≤ 2 → getInput 4 buf = { index := (k : Int) + 1, type := KeyType.Extra }) ∧
      (k = 3 → getInput 4 buf = { index := 4, type := KeyType.Record }) := by
  obtain ⟨n, hn, _, h4, h123, _⟩ := getInput_extra_decode buf h0 h1 h2
  have hk1 : IsLowestSetBit ((buf 2).val >>> 4) (k + 1) := by
    rw [hk]
    exact IsLowestSetBit_two_pow k
  have hnk : n = k + 1 := IsLowestSetBit_unique _ _ _ hn hk1
  constructor
  · intro hk2
    have := h123 (by omega)
    rw [this, hnk]
    simp
  · intro hk3
    exact h4 (by omega)

/-- C2: a 4-byte report with marker 0x03, a zero macro-key byte and a non-zero
extra-key byte decodes by the position `n` of the lowest set bit of the high
nibble of the extra-key byte: Record with index 4 when `n = 4`, Extra with
index `n` when `n` is 1, 2 or 3, and the default `KeyData` when `n = 0`; for
the high nibble `1 <<< k` that is Extra with index `k + 1` for `k` up to 2 and
Record with index 4 for `k = 3`. -/
theorem getInput_extra (buf : Nat → Fin 256) (h0 : buf 0 = 0x03) (h1 : buf 1 = 0)
    (h2 : buf 2 ≠ 0) :
    (∃ n : Nat, IsLowestSetBit ((buf 2).val >>> 4) n ∧ n ≤ 4 ∧
      (n = 4 → getInput 4 buf = { index := 4, type := KeyType.Record }) ∧
      (n = 1 ∨ n = 2 ∨ n = 3 → getInput 4 buf = { index := (n : Int), type := KeyType.Extra }) ∧
      (n = 0 → getInput 4 buf = { index := 0, type := KeyType.None })) ∧
    (∀ k : Nat, k ≤ 3 → (buf 2).val >>> 4 = 1 <<< k →
      (k ≤ 2 → getInput 4 buf = { index := (k : Int) + 1, type := KeyType.Extra }) ∧
      (k = 3 → getInput 4 buf = { index := 4, type := KeyType.Record })) :=
  ⟨getInput_extra_decode buf h0 h1 h2, fun k _ hk => getInput_extra_single buf h0 h1 h2 k hk⟩

/-- Witness of C2: the report of key MR. -/
theorem getInput_extra_witness :
    getInput 4 (bufOf [0x03, 0x00, 0x80, 0x00]) = { index := 4, type := KeyType.Record } :=
  ((getInput_extra (bufOf [0x03, 0x00, 0x80, 0x00]) (by decide) (by decide) (by decide)).2
    3 (by decide) (by decide)).2 rfl

/-- C3: a read that is not of exactly 4 bytes, or whose first byte is not
0x03, or whose macro-key and extra-key bytes are both non-zero, decodes to the
default `KeyData`, and `handleKey` does nothing on it. -/
theorem getInput_reject (hrm : Led → Int → LogitechG710 → LogitechG710) (s : LogitechG710)
    (nBytes : Int) (buf : Nat → Fin 256)
    (h : nBytes ≠ 4 ∨ buf 0 ≠ 0x03 ∨ (buf 1 ≠ 0 ∧ buf 2 ≠ 0)) :
    getInput nBytes buf = { index := 0, type := KeyType.None } ∧
      handleKey hrm s (getInput nBytes buf) = (s, []) := by
  have hres : getInput nBytes buf = { index := 0, type := KeyType.None } := by
    rcases h with h | h | ⟨h1, h2⟩
    · simp [getInput, h]
    · simp [getInput, h]
    · simp [getInput, h1, h2]
  refine ⟨hres, ?_⟩
  rw [hres]
  simp [handleKey]

/-- Witness of C3: a failed read, whatever the buffer holds. -/
theorem getInput_reject_witness :
    getInput (-1) (bufOf [0x03, 0x01, 0x00, 0x00]) = { index := 0, type := KeyType.None } ∧
      handleKey recordLedOn ⟨1, 0x20, false⟩ (getInput (-1) (bufOf [0x03, 0x01, 0x00, 0x00]))
        = (⟨1, 0x20, false⟩, []) :=
  getInput_reject recordLedOn ⟨1, 0x20, false⟩ (-1) (bufOf [0x03, 0x01, 0x00, 0x00])
    (Or.inl (by decide))

/-! ## The profile state machine -/

theorem setProfile_profile (s : LogitechG710) (p : Int) :
    (setProfile p s).1.profile_ = p := by
  unfold setProfile
  simp only []
  split_ifs <;> rfl

/-- C4: the report of profile key `k + 1` (`k` in 0, 1, 2), decoded by
`getInput` and handed to `handleKey`, leaves `profile_ = k` and calls `on()` on
the profile LED `k + 1` and on nothing else, whatever the profile was. -/
theorem profileSelect_sets_profile (hrm : Led → Int → LogitechG710 → LogitechG710)
    (s : LogitechG710) (buf : Nat → Fin 256) (k : Nat) (hk : k ≤ 2)
    (h0 : buf 0 = 0x03) (h1 : buf 1 = 0) (h2 : (buf 2).val = 0x10 <<< k) :
    (handleKey hrm s (getInput 4 buf)).1.profile_ = (k : Int) ∧
      (handleKey hrm s (getInput 4 buf)).2 = [Effect.ledOn (profileLed k)] := by
  have hne : buf 2 ≠ 0 := by
    intro h
    rw [h] at h2
    interval_cases k <;> simp at h2
  have hnib : (buf 2).val >>> 4 = 1 <<< k := by
    rw [h2]
    interval_cases k <;> rfl
  have hdec := (getInput_extra_single buf h0 h1 hne k hnib).1 hk
  rw [hdec]
  interval_cases k <;>
    simp [handleKey, setProfile, profileLed, G710_KEY_M1, G710_KEY_M2, G710_KEY_M3]

/-- Witness of C4: the report of key M1 selects profile 0 from profile 2. -/
theorem profileSelect_sets_profile_witness :
    (handleKey recordLedOn ⟨2, 0x40, false⟩ (getInput 4 (bufOf [0x03, 0x00, 0x10, 0x00]))).1.profile_
        = ((0 : Nat) : Int) ∧
      (handleKey recordLedOn ⟨2, 0x40, false⟩ (getInput 4 (bufOf [0x03, 0x00, 0x10, 0x00]))).2
        = [Effect.ledOn (profileLed 0)] :=
  profileSelect_sets_profile recordLedOn ⟨2, 0x40, false⟩ (bufOf [0x03, 0x00, 0x10, 0x00]) 0
    (by decide) (by decide) (by decide) (by decide)

/-- C9: `handleKey` leaves `profile_` as it was on every `KeyData` whose index
is 0 or whose type is not Extra, given that `handleRecordMode` does not write
`profile_`; on a Macro event it only starts the playback of the macro of the
key under the current profile. -/
theorem handleKey_profile_frame (hrm : Led → Int → LogitechG710 → LogitechG710)
    (hfr : ∀ l key st, (hrm l key st).profile_ = st.profile_)
    (s : LogitechG710) (keyData : KeyData)
    (h : keyData.index = 0 ∨ keyData.type ≠ KeyType.Extra) :
    (handleKey hrm s keyData).1.profile_ = s.profile_ ∧
      (keyData.index ≠ 0 → keyData.type = KeyType.Macro →
        handleKey hrm s keyData = (s, [Effect.playMacro keyData.index s.profile_])) := by
  constructor
  · unfold handleKey
    rcases h with h | h
    · simp [h]
    · split_ifs <;> first | rfl | exact hfr _ _ _
  · intro hi ht
    simp [handleKey, hi, ht]

/-- Witness of C9: the event of macro key G3 under profile 1, with a
`handleRecordMode` that lights the record LED. -/
theorem handleKey_profile_frame_witness :
    (handleKey recordLedOn ⟨1, 0x20, false⟩ ⟨3, KeyType.Macro⟩).1.profile_ = 1 ∧
      handleKey recordLedOn ⟨1, 0x20, false⟩ ⟨3, KeyType.Macro⟩
        = (⟨1, 0x20, false⟩, [Effect.playMacro 3 1]) :=
  ⟨(handleKey_profile_frame recordLedOn (fun _ _ _ => rfl) ⟨1, 0x20, false⟩ ⟨3, KeyType.Macro⟩
      (Or.inr (by decide))).1,
    (handleKey_profile_frame recordLedOn (fun _ _ _ => rfl) ⟨1, 0x20, false⟩ ⟨3, KeyType.Macro⟩
      (Or.inr (by decide))).2 (by decide) rfl⟩

theorem handleKey_range (hrm : Led → Int → LogitechG710 → LogitechG710)
    (hfr : ∀ l key st, 0 ≤ st.profile_ ∧ st.profile_ ≤ 2 →
      0 ≤ (hrm l key st).profile_ ∧ (hrm l key st).profile_ ≤ 2)
    (s : LogitechG710) (keyData : KeyData) (hs : 0 ≤ s.profile_ ∧ s.profile_ ≤ 2) :
    0 ≤ (handleKey hrm s keyData).1.profile_ ∧ (handleKey hrm s keyData).1.profile_ ≤ 2 := by
  unfold handleKey
  split_ifs <;>
    first
      | exact hs
      | exact hfr _ _ _ hs
      | (rw [setProfile_profile]; omega)

theorem handleKeys_range (hrm : Led → Int → LogitechG710 → LogitechG710)
    (hfr : ∀ l key st, 0 ≤ st.profile_ ∧ st.profile_ ≤ 2 →
      0 ≤ (hrm l key st).profile_ ∧ (hrm l key st).profile_ ≤ 2)
    (keys : List KeyData) :
    ∀ s : LogitechG710, 0 ≤ s.profile_ ∧ s.profile_ ≤ 2 →
      0 ≤ (handleKeys hrm s keys).profile_ ∧ (handleKeys hrm s keys).profile_ ≤ 2 := by
  induction keys with
  | nil =>
    intro s hs
    exact hs
  | cons k ks ih =>
    intro s hs
    exact ih _ (handleKey_range hrm hfr s k hs)

theorem handleRecordMode_profile (l : Led) (key : Int) (st : LogitechG710) :
    (handleRecordMode l key st).profile_ = st.profile_ := rfl

/-- C10: from a profile in 0, 1, 2, `handleKey` applied to any finite sequence
of `KeyData` values, and so to the events `getInput` decodes from any sequence
of reads, leaves the profile in 0, 1, 2; an Extra event with an index outside
1, 2, 3 changes nothing. -/
theorem profile_in_range (s : LogitechG710) (hs : 0 ≤ s.profile_ ∧ s.profile_ ≤ 2) :
    (∀ keys : List KeyData,
      0 ≤ (handleKeys handleRecordMode s keys).profile_ ∧
        (handleKeys handleRecordMode s keys).profile_ ≤ 2) ∧
    (∀ reads : List (Int × (Nat → Fin 256)),
      0 ≤ (handleKeys handleRecordMode s (reads.map (fun r => getInput r.1 r.2))).profile_ ∧
        (handleKeys handleRecordMode s (reads.map (fun r => getInput r.1 r.2))).profile_ ≤ 2) ∧
    (∀ (hrm : Led → Int → LogitechG710 → LogitechG710) (t : LogitechG710) (index : Int),
      index ≠ 1 → index ≠ 2 → index ≠ 3 →
      handleKey hrm t { index := index, type := KeyType.Extra } = (t, [])) := by
  have hfr : ∀ (l : Led) (key : Int) (st : LogitechG710),
      0 ≤ st.profile_ ∧ st.profile_ ≤ 2 →
      0 ≤ (handleRecordMode l key st).profile_ ∧ (handleRecordMode l key st).profile_ ≤ 2 := by
    intro l key st h
    rw [handleRecordMode_profile]
    exact h
  refine ⟨fun keys => handleKeys_range handleRecordMode hfr keys s hs,
    fun reads => handleKeys_range handleRecordMode hfr _ s hs, ?_⟩
  intro hrm t index h1 h2 h3
  simp [handleKey, G710_KEY_M1, G710_KEY_M2, G710_KEY_M3, h1, h2, h3]

/-! ## The profile LEDs -/

theorem isOn_two_pow (l : Led) (v i : Nat) (hl : l.led = 2 ^ i) :
    l.isOn v = v.testBit i := by
  unfold Led.isOn
  rw [hl, Nat.and_two_pow]
  cases h : v.testBit i <;> simp

theorem ledProfile1_bit : ledProfile1_.led = 2 ^ 4 := rfl

theorem ledProfile2_bit : ledProfile2_.led = 2 ^ 5 := rfl

theorem ledProfile3_bit : ledProfile3_.led = 2 ^ 6 := rfl

theorem ledRecord_bit : ledRecord_.led = 2 ^ 7 := rfl

theorem on_ledProfile1 (v : Nat) :
    Led.on group_ ledProfile1_ v = ((v &&& 223) &&& 191) ||| 16 := by
  simp [Led.on, group_, ledProfile1_, ledProfile2_, ledProfile3_, ledRecord_, G710_LED_M1,
    G710_LED_M2, G710_LED_M3, G710_LED_MR, G710_FEATURE_REPORT_LED]

theorem on_ledProfile2 (v : Nat) :
    Led.on group_ ledProfile2_ v = ((v &&& 239) &&& 191) ||| 32 := by
  simp [Led.on, group_, ledProfile1_, ledProfile2_, ledProfile3_, ledRecord_, G710_LED_M1,
    G710_LED_M2, G710_LED_M3, G710_LED_MR, G710_FEATURE_REPORT_LED]

theorem on_ledProfile3 (v : Nat) :
    Led.on group_ ledProfile3_ v = ((v &&& 239) &&& 223) ||| 64 := by
  simp [Led.on, group_, ledProfile1_, ledProfile2_, ledProfile3_, ledRecord_, G710_LED_M1,
    G710_LED_M2, G710_LED_M3, G710_LED_MR, G710_FEATURE_REPORT_LED]

theorem setProfile_zero_value (t : LogitechG710) :
    (setProfile ((0 : Nat) : Int) t).1.ledValue = ((t.ledValue &&& 223) &&& 191) ||| 16 := by
  simp [setProfile, on_ledProfile1]

theorem setProfile_one_value (t : LogitechG710) :
    (setProfile ((1 : Nat) : Int) t).1.ledValue = ((t.ledValue &&& 239) &&& 191) ||| 32 := by
  simp [setProfile, on_ledProfile2]

theorem setProfile_two_value (t : LogitechG710) :
    (setProfile ((2 : Nat) : Int) t).1.ledValue = ((t.ledValue &&& 239) &&& 223) ||| 64 := by
  simp [setProfile, on_ledProfile3]

theorem setProfile_leds (t : LogitechG710) (j : Nat) (hj : j ≤ 2) :
    (∀ k, k ≤ 2 → (profileLed k).isOn (setProfile (j : Int) t).1.ledValue = decide (k = j)) ∧
      ledRecord_.isOn (setProfile (j : Int) t).1.ledValue = ledRecord_.isOn t.ledValue := by
  rw [isOn_two_pow ledRecord_ _ 7 ledRecord_bit, isOn_two_pow ledRecord_ _ 7 ledRecord_bit]
  constructor
  · intro k hk
    have hbit : (profileLed k).led = 2 ^ (k + 4) := by
      interval_cases k <;> rfl
    rw [isOn_two_pow (profileLed k) _ (k + 4) hbit]
    interval_cases j <;> interval_cases k <;>
      simp only [setProfile_zero_value, setProfile_one_value, setProfile_two_value,
        Nat.testBit_or, Nat.testBit_and] <;>
      simp [Nat.testBit]
  · interval_cases j <;>
      simp only [setProfile_zero_value, setProfile_one_value, setProfile_two_value,
        Nat.testBit_or, Nat.testBit_and] <;>
      simp [Nat.testBit]

/-- C8: for different profiles `i` and `j` in 0, 1, 2, after `setProfile(i)`
and then `setProfile(j)` the profile LED `j + 1` is lit and the other two
profile LEDs are dark, and the record LED is as it was; the three profile LEDs
are of class Profile, the record LED of class Indicator, all in `group_`. -/
theorem profileLeds_exclusive (s : LogitechG710) (i j : Nat) (hi : i ≤ 2) (hj : j ≤ 2)
    (hij : i ≠ j) :
    (∀ k, k ≤ 2 →
      (profileLed k).isOn (setProfile (j : Int) (setProfile (i : Int) s).1).1.ledValue
        = decide (k = j)) ∧
    (profileLed i).isOn (setProfile (j : Int) (setProfile (i : Int) s).1).1.ledValue = false ∧
    ledRecord_.isOn (setProfile (j : Int) (setProfile (i : Int) s).1).1.ledValue
      = ledRecord_.isOn s.ledValue ∧
    (∀ k, k ≤ 2 → (profileLed k).ledType = LedType.Profile ∧ profileLed k ∈ group_) ∧
    (ledRecord_.ledType = LedType.Indicator ∧ ledRecord_ ∈ group_) := by
  have h2 := setProfile_leds (setProfile (i : Int) s).1 j hj
  have h1 := setProfile_leds s i hi
  refine ⟨h2.1, ?_, ?_, ?_, ?_⟩
  · rw [h2.1 i hi]
    simp [hij]
  · rw [h2.2, h1.2]
  · intro k hk
    interval_cases k <;> simp [profileLed, group_, ledProfile1_, ledProfile2_, ledProfile3_]
  · simp [group_, ledRecord_]

/-- Witness of C8: profile 0 and then profile 1, from all four LEDs lit. -/
theorem profileLeds_exclusive_witness :
    (∀ k, k ≤ 2 →
      (profileLed k).isOn
          (setProfile ((1 : Nat) : Int) (setProfile ((0 : Nat) : Int) ⟨2, 0xF0, false⟩).1).1.ledValue
        = decide (k = 1)) ∧
    (profileLed 0).isOn
        (setProfile ((1 : Nat) : Int) (setProfile ((0 : Nat) : Int) ⟨2, 0xF0, false⟩).1).1.ledValue
      = false ∧
    ledRecord_.isOn
        (setProfile ((1 : Nat) : Int) (setProfile ((0 : Nat) : Int) ⟨2, 0xF0, false⟩).1).1.ledValue
      = ledRecord_.isOn (LogitechG710.mk 2 0xF0 false).ledValue ∧
    (∀ k, k ≤ 2 → (profileLed k).ledType = LedType.Profile ∧ profileLed k ∈ group_) ∧
    (ledRecord_.ledType = LedType.Indicator ∧ ledRecord_ ∈ group_) :=
  profileLeds_exclusive ⟨2, 0xF0, false⟩ 0 1 (by decide) (by decide) (by decide)

/-! ## The device locator -/

theorem inputCondition_iff (device : Device) (e : UdevEntry) :
    inputCondition device e.sysPath e = true ↔ inputMatches device e := by
  unfold inputCondition inputMatches udev_device_get_property_value
  simp only [Bool.and_eq_true, decide_eq_true_eq]
  constructor
  · rintro ⟨⟨⟨⟨⟨⟨⟨⟨⟨h1, _⟩, h3⟩, _⟩, h5⟩, _⟩, h7⟩, h8⟩, h9⟩, h10⟩
    exact ⟨h1, h3, h5, h7, h8, h9, h10⟩
  · rintro ⟨h1, h3, h5, h7, h8, h9, h10⟩
    refine ⟨⟨⟨⟨⟨⟨⟨⟨⟨h1, ?_⟩, h3⟩, ?_⟩, h5⟩, ?_⟩, h7⟩, h8⟩, h9⟩, h10⟩
    · rw [h3]; rfl
    · rw [h5]; rfl
    · rw [h7]; rfl

theorem hidraw_ne_input : ("hidraw" : String) ≠ "input" := by decide

theorem findDeviceStep_spec (device : Device) (st : Bool × DevNode) (e : UdevEntry)
    (hwf : e.subsystem = "hidraw" → ancestorsExist e) :
    ∃ st1, findDeviceStep device st e = some st1 ∧
      (st1.1 = true ↔ st.1 = true ∨ hidrawMatches device e) ∧
      (hidrawMatches device e → st1.2.hidraw = e.devnode) ∧
      (¬ hidrawMatches device e → st1.2.hidraw = st.2.hidraw) ∧
      (inputMatches device e → st1.2.inputEvent = e.devnode) ∧
      (¬ inputMatches device e → st1.2.inputEvent = st.2.inputEvent) := by
  by_cases hs : e.subsystem = "hidraw"
  · obtain ⟨i, d, hi, hd⟩ := hwf hs
    have hin : ¬ inputMatches device e := by
      intro h
      exact hidraw_ne_input (hs.symm.trans h.1)
    by_cases hm : i.bInterfaceNumber = "01" ∧ d.idVendor = device.vendor ∧
        d.idProduct = device.product
    · have hmatch : hidrawMatches device e := ⟨hs, i, d, hi, hm.1, hd, hm.2.1, hm.2.2⟩
      refine ⟨(true, { st.2 with hidraw := e.devnode }), ?_, ?_, ?_, ?_, ?_, ?_⟩
      · simp [findDeviceStep, hidrawBranch, udev_device_get_subsystem, hs, hi, hd, hm.1,
          hm.2.1, hm.2.2, inputBranch]
      · simp [hmatch]
      · intro _; rfl
      · intro h; exact absurd hmatch h
      · intro h; exact absurd h hin
      · intro _; rfl
    · have hmatch : ¬ hidrawMatches device e := by
        rintro ⟨_, i2, d2, hi2, h01, hd2, hv, hp⟩
        rw [hi] at hi2
        cases hi2
        rw [hd] at hd2
        cases hd2
        exact hm ⟨h01, hv, hp⟩
      refine ⟨st, ?_, ?_, ?_, ?_, ?_, ?_⟩
      · simp only [findDeviceStep, hidrawBranch, udev_device_get_subsystem, hs, hi, hd, if_true]
        split_ifs <;> first | rfl | (exfalso; apply hm; constructor <;> simp_all)
      · simp [hmatch]
      · intro h; exact absurd h hmatch
      · intro _; rfl
      · intro h; exact absurd h hin
      · intro _; rfl
  · have hmatch : ¬ hidrawMatches device e := fun h => hs h.1
    have hstep : findDeviceStep device st e
        = some (inputBranch device e.sysPath (UdevDevice.entry e) st) := by
      simp [findDeviceStep, hidrawBranch, udev_device_get_subsystem, hs]
    by_cases hin : inputMatches device e
    · have hc := (inputCondition_iff device e).mpr hin
      refine ⟨(st.1, { st.2 with inputEvent := e.devnode }), ?_, ?_, ?_, ?_, ?_, ?_⟩
      · rw [hstep]
        simp [inputBranch, hc]
      · simp [hmatch]
      · intro h; exact absurd h hmatch
      · intro _; rfl
      · intro _; rfl
      · intro h; exact absurd hin h
    · have hc : inputCondition device e.sysPath e = false := by
        rw [← Bool.not_eq_true]
        exact fun h => hin ((inputCondition_iff device e).mp h)
      refine ⟨st, ?_, ?_, ?_, ?_, ?_, ?_⟩
      · rw [hstep]
        simp [inputBranch, hc]
      · simp [hmatch]
      · intro h; exact absurd h hmatch
      · intro _; rfl
      · intro h; exact absurd h hin
      · intro _; rfl

theorem findDeviceLoop_spec (device : Device) (entries : List UdevEntry) :
    (∀ e ∈ entries, e.subsystem = "hidraw" → ancestorsExist e) →
    ∀ st : Bool × DevNode, ∃ st1, findDeviceLoop device entries st = some st1 ∧
      (st1.1 = true ↔ st.1 = true ∨ ∃ e ∈ entries, hidrawMatches device e) ∧
      ((∀ e ∈ entries, ¬ hidrawMatches device e) → st1.2.hidraw = st.2.hidraw) ∧
      ((∀ e ∈ entries, ¬ inputMatches device e) → st1.2.inputEvent = st.2.inputEvent) := by
  induction entries with
  | nil =>
    intro _ st
    exact ⟨st, rfl, by simp, fun _ => rfl, fun _ => rfl⟩
  | cons e es ih =>
    intro hwf st
    obtain ⟨st1, hstep, hf, _, hh, _, hi⟩ :=
      findDeviceStep_spec device st e (hwf e (List.mem_cons_self e es))
    obtain ⟨st2, hloop, hf2, hh2, hi2⟩ :=
      ih (fun x hx => hwf x (List.mem_cons_of_mem e hx)) st1
    refine ⟨st2, ?_, ?_, ?_, ?_⟩
    · simp [findDeviceLoop, hstep, hloop]
    · rw [hf2, hf]
      constructor
      · rintro ((h | h) | ⟨x, hx, h⟩)
        · exact Or.inl h
        · exact Or.inr ⟨e, List.mem_cons_self e es, h⟩
        · exact Or.inr ⟨x, List.mem_cons_of_mem e hx, h⟩
      · rintro (h | ⟨x, hx, h⟩)
        · exact Or.inl (Or.inl h)
        · rcases List.mem_cons.mp hx with rfl | hx
          · exact Or.inl (Or.inr h)
          · exact Or.inr ⟨x, hx, h⟩
    · intro hnone
      have h1 : ¬ hidrawMatches device e := hnone e (List.mem_cons_self e es)
      have h2 : ∀ x ∈ es, ¬ hidrawMatches device x :=
        fun x hx => hnone x (List.mem_cons_of_mem e hx)
      exact (hh2 h2).trans (hh h1)
    · intro hnone
      have h1 : ¬ inputMatches device e := hnone e (List.mem_cons_self e es)
      have h2 : ∀ x ∈ es, ¬ inputMatches device x :=
        fun x hx => hnone x (List.mem_cons_of_mem e hx)
      exact (hi2 h2).trans (hi h1)

theorem findDeviceLoop_append (device : Device) (xs ys : List UdevEntry) :
    ∀ st st1, findDeviceLoop device xs st = some st1 →
      findDeviceLoop device (xs ++ ys) st = findDeviceLoop device ys st1 := by
  induction xs with
  | nil =>
    intro st st1 h
    simp only [findDeviceLoop, Option.some.injEq] at h
    rw [List.nil_append, h]
  | cons x xs ih =>
    intro st st1 h
    simp only [findDeviceLoop, List.cons_append] at h ⊢
    cases hx : findDeviceStep device st x with
    | none => rw [hx] at h; exact Option.noConfusion h
    | some st2 =>
      rw [hx] at h
      simp only [] at h ⊢
      exact ih st2 st1 h

theorem findDevice_some (device : Device) (devNode : DevNode) (entries : List UdevEntry)
    (st : Bool × DevNode) (h : findDeviceLoop device entries (false, devNode) = some st) :
    findDevice device devNode (some entries) = some (if st.1 then 1 else 0, st.2) := by
  simp [findDevice, h]

/-- C5: on an enumeration whose `hidraw` entries have their USB ancestors,
`findDevice` returns 1 exactly when some `hidraw` entry has interface number
"01" and a USB device with the descriptor's vendor and product, and 0
otherwise; a lone `hidraw` entry on another interface gives 0; and leaving out
the entries of the `input` subsystem does not change the returned value. -/
theorem findDevice_found_iff (device : Device) (devNode : DevNode) (entries : List UdevEntry)
    (hwf : ∀ e ∈ entries, e.subsystem = "hidraw" → ancestorsExist e) :
    (∃ ret node, findDevice device devNode (some entries) = some (ret, node) ∧
      (ret = 1 ∨ ret = 0) ∧
      (ret = 1 ↔ ∃ e ∈ entries, hidrawMatches device e) ∧
      ∃ node2, findDevice device devNode
        (some (entries.filter (fun e => decide (e.subsystem ≠ "input")))) = some (ret, node2)) ∧
    (∀ (e : UdevEntry) (i : UsbInterface) (d : UsbDevice), e.subsystem = "hidraw" →
      e.usbInterface = some i → i.usbDevice = some d → i.bInterfaceNumber ≠ "01" →
      findDevice device devNode (some [e]) = some (0, devNode)) := by
  constructor
  · obtain ⟨st, hloop, hf, _, _⟩ := findDeviceLoop_spec device entries hwf (false, devNode)
    have hwf2 : ∀ e ∈ entries.filter (fun e => decide (e.subsystem ≠ "input")),
        e.subsystem = "hidraw" → ancestorsExist e :=
      fun e he => hwf e (List.mem_of_mem_filter he)
    obtain ⟨st2, hloop2, hf2, _, _⟩ := findDeviceLoop_spec device _ hwf2 (false, devNode)
    have hsame : st2.1 = st.1 := by
      have hiff : st2.1 = true ↔ st.1 = true := by
        rw [hf, hf2]
        constructor
        · rintro (h | ⟨x, hx, h⟩)
          · exact Or.inl h
          · exact Or.inr ⟨x, List.mem_of_mem_filter hx, h⟩
        · rintro (h | ⟨x, hx, h⟩)
          · exact Or.inl h
          · refine Or.inr ⟨x, List.mem_filter.mpr ⟨hx, ?_⟩, h⟩
            have hsub : x.subsystem = "hidraw" := h.1
            simp only [decide_eq_true_eq]
            intro hin
            exact hidraw_ne_input (hsub.symm.trans hin)
      cases h2 : st2.1 <;> cases h1 : st.1 <;> simp_all
    refine ⟨if st.1 then 1 else 0, st.2, findDevice_some device devNode entries st hloop,
      ?_, ?_, st2.2, ?_⟩
    · cases st.1 <;> simp
    · rw [← (by simpa using hf : st.1 = true ↔ ∃ e ∈ entries, hidrawMatches device e)]
      cases st.1 <;> simp
    · rw [findDevice_some device devNode _ st2 hloop2, hsame]
  · intro e i d hs hi hd hne
    simp [findDevice, findDeviceLoop, findDeviceStep, hidrawBranch, udev_device_get_subsystem,
      hs, hi, hne, inputBranch]

/-- Witness of C5: the G710+ on interface "02", on the keyboard input node and
on interface "01". -/
theorem findDevice_found_iff_witness :
    (∃ ret node,
      findDevice g710 ⟨"", ""⟩ (some [g710Hidraw "0" "02", g710Event "5", g710Hidraw "1" "01"])
        = some (ret, node) ∧
      (ret = 1 ∨ ret = 0) ∧
      (ret = 1 ↔ ∃ e ∈ [g710Hidraw "0" "02", g710Event "5", g710Hidraw "1" "01"],
        hidrawMatches g710 e) ∧
      ∃ node2, findDevice g710 ⟨"", ""⟩
        (some ([g710Hidraw "0" "02", g710Event "5", g710Hidraw "1" "01"].filter
          (fun e => decide (e.subsystem ≠ "input")))) = some (ret, node2)) ∧
    (∀ (e : UdevEntry) (i : UsbInterface) (d : UsbDevice), e.subsystem = "hidraw" →
      e.usbInterface = some i → i.usbDevice = some d → i.bInterfaceNumber ≠ "01" →
      findDevice g710 ⟨"", ""⟩ (some [e]) = some (0, ⟨"", ""⟩)) :=
  findDevice_found_iff g710 ⟨"", ""⟩ [g710Hidraw "0" "02", g710Event "5", g710Hidraw "1" "01"]
    (by
      intro e he _
      simp only [List.mem_cons, List.mem_singleton, List.not_mem_nil, or_false] at he
      rcases he with rfl | rfl | rfl <;> exact ⟨_, _, rfl, rfl⟩)

/-- Counterexample to C6: with two matching raw-HID entries and two matching
input entries, `findDevice` leaves the nodes of the second of each in
`*devNode`, not those of the first. -/
theorem findDevice_first_match_counterexample :
    hidrawMatches g710 (g710Hidraw "0" "01") ∧ hidrawMatches g710 (g710Hidraw "1" "01") ∧
    inputMatches g710 (g710Event "5") ∧ inputMatches g710 (g710Event "6") ∧
    findDevice g710 ⟨"", ""⟩
        (some [g710Hidraw "0" "01", g710Hidraw "1" "01", g710Event "5", g710Event "6"])
      = some (1, ⟨"/dev/hidraw1", "/dev/input/event6"⟩) ∧
    (g710Hidraw "0" "01").devnode ≠ "/dev/hidraw1" ∧
    (g710Event "5").devnode ≠ "/dev/input/event6" := by
  refine ⟨⟨rfl, _, _, rfl, rfl, rfl, rfl, rfl⟩, ⟨rfl, _, _, rfl, rfl, rfl, rfl, rfl⟩,
    ?_, ?_, ?_, ?_, ?_⟩
  · rw [← inputCondition_iff]; decide
  · rw [← inputCondition_iff]; decide
  · decide
  · decide
  · decide

/-- C6, amended: on an enumeration whose `hidraw` entries have their USB
ancestors, `findDevice` leaves in `*devNode` the node of the last matching
raw-HID entry (and returns 1), and the node of the last matching input
entry. -/
theorem findDevice_last_match (device : Device) (devNode : DevNode)
    (pre post : List UdevEntry) (e : UdevEntry)
    (hwf : ∀ x ∈ pre ++ e :: post, x.subsystem = "hidraw" → ancestorsExist x) :
    ∃ ret node, findDevice device devNode (some (pre ++ e :: post)) = some (ret, node) ∧
      (hidrawMatches device e → (∀ x ∈ post, ¬ hidrawMatches device x) →
        ret = 1 ∧ node.hidraw = e.devnode) ∧
      (inputMatches device e → (∀ x ∈ post, ¬ inputMatches device x) →
        node.inputEvent = e.devnode) := by
  have hwf1 : ∀ x ∈ pre, x.subsystem = "hidraw" → ancestorsExist x :=
    fun x hx => hwf x (List.mem_append_left _ hx)
  have hwf2 : e.subsystem = "hidraw" → ancestorsExist e :=
    hwf e (List.mem_append_right _ (List.mem_cons_self e post))
  have hwf3 : ∀ x ∈ post, x.subsystem = "hidraw" → ancestorsExist x :=
    fun x hx => hwf x (List.mem_append_right _ (List.mem_cons_of_mem e hx))
  obtain ⟨st1, hloop1, _, _, _⟩ := findDeviceLoop_spec device pre hwf1 (false, devNode)
  obtain ⟨st2, hstep, hf2, hh2, _, hi2, _⟩ := findDeviceStep_spec device st1 e hwf2
  obtain ⟨st3, hloop3, hf3, hh3, hi3⟩ := findDeviceLoop_spec device post hwf3 st2
  have hloop : findDeviceLoop device (pre ++ e :: post) (false, devNode) = some st3 := by
    rw [findDeviceLoop_append device pre (e :: post) _ st1 hloop1]
    simp [findDeviceLoop, hstep, hloop3]
  refine ⟨if st3.1 then 1 else 0, st3.2,
    findDevice_some device devNode _ st3 hloop, ?_, ?_⟩
  · intro hm hnone
    have h3 : st3.1 = true := hf3.mpr (Or.inl (hf2.mpr (Or.inr hm)))
    refine ⟨by simp [h3], ?_⟩
    exact (hh3 hnone).trans (hh2 hm)
  · intro hm hnone
    exact (hi3 hnone).trans (hi2 hm)

/-- Witness of C6, amended: of two keyboards, the nodes of the second are the
ones kept. -/
theorem findDevice_last_match_witness :
    ∃ ret node,
      findDevice g710 ⟨"", ""⟩
        (some ([g710Hidraw "0" "01", g710Event "5"] ++ g710Hidraw "1" "01" :: [g710Event "6"]))
        = some (ret, node) ∧ ret = 1 ∧ node.hidraw = "/dev/hidraw1" := by
  obtain ⟨ret, node, hres, hh, _⟩ :=
    findDevice_last_match g710 ⟨"", ""⟩ [g710Hidraw "0" "01", g710Event "5"] [g710Event "6"]
      (g710Hidraw "1" "01")
      (by
        intro x hx _
        simp only [List.cons_append, List.nil_append, List.mem_cons, List.mem_singleton,
          List.not_mem_nil, or_false] at hx
        rcases hx with rfl | rfl | rfl | rfl <;> exact ⟨_, _, rfl, rfl⟩)
  refine ⟨ret, node, hres, hh ⟨rfl, _, _, rfl, rfl, rfl, rfl, rfl⟩ ?_⟩
  intro x hx hm
  simp only [List.mem_singleton] at hx
  subst hx
  exact hidraw_ne_input hm.1.symm

/-- C7, on the code: a raw-HID entry without a USB interface ancestor makes
`findDevice` hand a null pointer to `std::string`, so that no result comes
back, whereas the same enumeration without that entry finds the keyboard. -/
theorem findDevice_orphan_hidraw :
    findDevice g710 ⟨"", ""⟩ (some [orphanHidraw, g710Hidraw "0" "01"]) = none ∧
    findDevice g710 ⟨"", ""⟩ (some [g710Hidraw "0" "01"])
      = some (1, ⟨"/dev/hidraw0", ""⟩) := by
  constructor <;> decide

/-- Witness of C10: from profile 1 with its LED lit and Record disarmed. -/
theorem profile_in_range_witness :
    (∀ keys : List KeyData,
      0 ≤ (handleKeys handleRecordMode ⟨1, 0x20, false⟩ keys).profile_ ∧
        (handleKeys handleRecordMode ⟨1, 0x20, false⟩ keys).profile_ ≤ 2) ∧
    (∀ reads : List (Int × (Nat → Fin 256)),
      0 ≤ (handleKeys handleRecordMode ⟨1, 0x20, false⟩
          (reads.map (fun r => getInput r.1 r.2))).profile_ ∧
        (handleKeys handleRecordMode ⟨1, 0x20, false⟩
          (reads.map (fun r => getInput r.1 r.2))).profile_ ≤ 2) ∧
    (∀ (hrm : Led → Int → LogitechG710 → LogitechG710) (t : LogitechG710) (index : Int),
      index ≠ 1 → index ≠ 2 → index ≠ 3 →
      handleKey hrm t { index := index, type := KeyType.Extra } = (t, [])) :=
  profile_in_range ⟨1, 0x20, false⟩ (by decide)

end Sidewinderd
